import Mathlib

/-!
Shallow embedding of the Button debounce library (button.c / button.h).

The C library keeps, per button, a packed state record
(`state.act`, `state.prew`, `state.locked`), a debounce counter
`lock_count` (uint8_t), a long-press counter `long_count` (uint16_t) and an
optional per-button long-press time.  The engine configuration
(`btn_init_t`) holds the processing period, debounce time, default
long-press time, the mandatory pin-read callback and three optional event
callbacks.  Machine integers are modelled as `Nat` with explicit `% 256`
(uint8_t) and `% 65536` (uint16_t) at the points where the C code
increments and could wrap.  Callback invocation is modelled by emitting an
event value at exactly the program points where the C code calls a
non-NULL callback; the presence of each optional callback is a `Bool`
flag.  The pin-read callback result (a C truth value) is passed to the
per-button step as a `Bool`.
-/

/-- Mirrors `btn_state_t` from button.h: `BTN_STATE_NONE = 0`,
`BTN_STATE_SHORT`, `BTN_STATE_LONG`. -/
inductive btn_state_t where
  | BTN_STATE_NONE
  | BTN_STATE_SHORT
  | BTN_STATE_LONG
deriving DecidableEq, Repr

export btn_state_t (BTN_STATE_NONE BTN_STATE_SHORT BTN_STATE_LONG)

/-- Events emitted at the call sites of the three optional callbacks in
`Button_Update`. -/
inductive btn_event_t where
  | ev_short_release
  | ev_long_press
  | ev_long_release
deriving DecidableEq, Repr

/-- Mirrors `btn_instance_t` from button.h.  `act`/`prew` are the 2-bit
bitfields `state.act`/`state.prew`, `locked` the 1-bit `state.locked`;
`lock_count` is uint8_t, `long_count` and `long_press_time_ms` uint16_t.
The GPIO `port` pointer and `pin` number are opaque identifiers here.
Default field values model C zero-initialisation of caller storage. -/
structure btn_instance_t where
  act : btn_state_t := BTN_STATE_NONE
  prew : btn_state_t := BTN_STATE_NONE
  locked : Bool := false
  lock_count : Nat := 0
  long_count : Nat := 0
  long_press_time_ms : Nat := 0
  port : Nat := 0
  pin : Nat := 0
deriving DecidableEq, Repr

/-- Mirrors `btn_init_t` from button.h (minus the `instance` pointer,
which the embedding represents by returning the bound button list from
`Button_Init`).  `port_read` is the mandatory pin-read callback (`none`
models a NULL function pointer); the three optional event callbacks are
modelled by presence flags, since only whether they are NULL matters to
the engine. -/
structure btn_init_t where
  count : Nat := 0
  process_time_ms : Nat := 0
  debounce_time_ms : Nat := 0
  long_press_def_ms : Nat := 0
  port_read : Option (Nat → Nat → Bool) := none
  short_release : Bool := false
  long_release : Bool := false
  long_press : Bool := false

/-- `#define BTN_PROCESS_DEF (10)` -/
def BTN_PROCESS_DEF : Nat := 10

/-- `#define BTN_DEBOUNCE_DEF (20)` -/
def BTN_DEBOUNCE_DEF : Nat := 20

/-- `#define BTN_LONG_PRESS_DEF (1000)` -/
def BTN_LONG_PRESS_DEF : Nat := 1000

/-- `#define BTN_DEBOUNCE_TIME (this->debounce_time_ms / this->process_time_ms)` -/
def BTN_DEBOUNCE_TIME (cfg : btn_init_t) : Nat :=
  cfg.debounce_time_ms / cfg.process_time_ms

/-- `#define BTN_LONG_PRESS_TIME(x) (this->instance[x].long_press_time_ms / this->process_time_ms)` -/
def BTN_LONG_PRESS_TIME (cfg : btn_init_t) (b : btn_instance_t) : Nat :=
  b.long_press_time_ms / cfg.process_time_ms

/-- Default-application part of `Button_Init` (button.c lines 49-53):
`this->count = count;` and the three `(x) ? x : DEF` assignments. -/
def initApplyDefaults (i : btn_init_t) (count : Nat) : btn_init_t :=
  { i with
    count := count
    process_time_ms :=
      if i.process_time_ms ≠ 0 then i.process_time_ms else BTN_PROCESS_DEF
    debounce_time_ms :=
      if i.debounce_time_ms ≠ 0 then i.debounce_time_ms else BTN_DEBOUNCE_DEF
    long_press_def_ms :=
      if i.long_press_def_ms ≠ 0 then i.long_press_def_ms else BTN_LONG_PRESS_DEF }

/-- Body of the per-button loop in `Button_Init` (button.c lines 54-61):
zeroes `state.locked`, `state.prew`, `long_count`, `lock_count` and applies
the per-button long-press default.  Note the C loop does NOT touch
`state.act`. -/
def resetButton (long_press_def_ms : Nat) (b : btn_instance_t) : btn_instance_t :=
  { b with
    locked := false
    prew := BTN_STATE_NONE
    long_count := 0
    lock_count := 0
    long_press_time_ms :=
      if b.long_press_time_ms ≠ 0 then b.long_press_time_ms else long_press_def_ms }

/-- Mirrors `Button_Init` (button.c lines 38-63).  `none` arguments model
NULL pointers; the int8_t return value is the first component (-1 error,
0 success); on success the second component is the bound engine state:
the configuration with defaults applied and the button storage with the
first `count` entries re-initialised (the C loop runs for `i < count`). -/
def Button_Init (init : Option btn_init_t) (inst : Option (List btn_instance_t))
    (count : Nat) : Int × Option (btn_init_t × List btn_instance_t) :=
  match init, inst with
  | some i, some l =>
    if i.port_read.isNone ∨ count = 0 then (-1, none)
    else
      let i1 := initApplyDefaults i count
      (0, some (i1, (l.take count).map (resetButton i1.long_press_def_ms) ++ l.drop count))
  | _, _ => (-1, none)

/-- Per-button body of the `while (key < this->count)` loop in
`Button_Update` (button.c lines 72-131), for one button `b` given the raw
reading `raw` (`this->port_read(port, pin)` as a truth value, so
`now_pressed = BTN_STATE_SHORT` iff `raw = true`).  Returns the updated
button together with the events emitted for it on this tick. -/
def buttonStep (cfg : btn_init_t) (b : btn_instance_t) (raw : Bool) :
    btn_instance_t × List btn_event_t :=
  if raw then
    -- Button pressed (now_pressed = BTN_STATE_SHORT)
    let b1 :=
      if !b.locked then
        let lc := (b.lock_count + 1) % 256
        if BTN_DEBOUNCE_TIME cfg ≤ lc then
          { b with lock_count := lc, locked := true }
        else
          { b with lock_count := lc }
      else b
    let r :=
      if b1.locked ∧ b1.prew = BTN_STATE_SHORT then
        let lg := (b1.long_count + 1) % 65536
        if BTN_LONG_PRESS_TIME cfg b1 ≤ lg then
          ({ b1 with long_count := lg, act := BTN_STATE_LONG },
            if cfg.long_press then [btn_event_t.ev_long_press] else [])
        else
          ({ b1 with long_count := lg }, [])
      else (b1, [])
    ({ r.1 with prew := BTN_STATE_SHORT }, r.2)
  else
    -- Button released (now_pressed = BTN_STATE_NONE)
    if b.locked then
      if b.lock_count ≠ 0 then
        ({ b with lock_count := b.lock_count - 1 }, [])
      else
        let b1 := { b with locked := false }
        if b1.long_count < BTN_LONG_PRESS_TIME cfg b1 then
          if b1.lock_count = 0 then
            ({ b1 with act := BTN_STATE_SHORT },
              if cfg.short_release then [btn_event_t.ev_short_release] else [])
          else (b1, [])
        else
          if b1.act = BTN_STATE_LONG then
            (b1, if cfg.long_release then [btn_event_t.ev_long_release] else [])
          else (b1, [])
    else
      ({ b with long_count := 0 }, [])

/-- The `while (key < this->count)` loop of `Button_Update`, threading the
key index used as the callback argument. -/
def updateLoop (cfg : btn_init_t) (read : Nat → Nat → Bool) :
    Nat → List btn_instance_t → List btn_instance_t × List (Nat × btn_event_t)
  | _, [] => ([], [])
  | key, b :: rest =>
    let r := buttonStep cfg b (read b.port b.pin)
    let rr := updateLoop cfg read (key + 1) rest
    (r.1 :: rr.1, r.2.map (fun e => (key, e)) ++ rr.2)

/-- Mirrors `Button_Update` (button.c lines 66-134): advances the first
`cfg.count` buttons by one tick using the configured pin-read callback.
If the engine has no pin-read callback bound, the C code would
dereference NULL; the embedding leaves the state unchanged in that case
(the situation is unreachable after a successful `Button_Init`). -/
def Button_Update (cfg : btn_init_t) (inst : List btn_instance_t) :
    List btn_instance_t × List (Nat × btn_event_t) :=
  match cfg.port_read with
  | none => (inst, [])
  | some read =>
    let r := updateLoop cfg read 0 (inst.take cfg.count)
    (r.1 ++ inst.drop cfg.count, r.2)

/-- Mirrors `Button_EventGet` (button.c lines 136-140):
`if (key >= this->count) return 0;` then `return this->instance[key].state.act;`.
The in-range array read is modelled by an optional lookup defaulting to
`BTN_STATE_NONE` (in C the caller guarantees the storage has `count`
entries, so the default is never consulted for in-range keys). -/
def Button_EventGet (cfg : btn_init_t) (inst : List btn_instance_t)
    (key : Nat) : btn_state_t :=
  if cfg.count ≤ key then BTN_STATE_NONE
  else ((inst[key]?).map btn_instance_t.act).getD BTN_STATE_NONE

/-- Iterated `buttonStep` over a list of raw readings (one per tick),
collecting the emitted events in order. -/
def runSteps (cfg : btn_init_t) : btn_instance_t → List Bool → btn_instance_t × List btn_event_t
  | b, [] => (b, [])
  | b, r :: rs =>
    let s := buttonStep cfg b r
    let t := runSteps cfg s.1 rs
    (t.1, s.2 ++ t.2)

/-- `true` iff the button is unlocked in the initial state and after every
tick of the given raw-reading sequence (i.e. it never enters the locked
state along the run). -/
def neverLocked (cfg : btn_init_t) : btn_instance_t → List Bool → Bool
  | b, [] => !b.locked
  | b, r :: rs => !b.locked && neverLocked cfg (buttonStep cfg b r).1 rs


/-! ## Helper step lemmas -/

/-- Pressed tick on an unlocked button whose incremented debounce counter
stays strictly below the debounce threshold: the counter advances and the
previous raw state is recorded, nothing else happens. -/
lemma buttonStep_press_below (cfg : btn_init_t) (b : btn_instance_t)
    (hl : b.locked = false) (hwrap : b.lock_count + 1 < 256)
    (hlt : b.lock_count + 1 < BTN_DEBOUNCE_TIME cfg) :
    buttonStep cfg b true =
      ({ b with lock_count := b.lock_count + 1, prew := BTN_STATE_SHORT }, []) := by
  obtain ⟨a, p, lk, lc, lg, lpt, po, pi⟩ := b
  simp only at hl hwrap hlt
  subst hl
  have h1 : ¬ BTN_DEBOUNCE_TIME cfg ≤ lc + 1 := by omega
  simp [buttonStep, Nat.mod_eq_of_lt hwrap, h1]

/-- Released tick on an unlocked button: only `long_count` is reset. -/
lemma buttonStep_release_unlocked (cfg : btn_init_t) (b : btn_instance_t)
    (hl : b.locked = false) :
    buttonStep cfg b false = ({ b with long_count := 0 }, []) := by
  obtain ⟨a, p, lk, lc, lg, lpt, po, pi⟩ := b
  simp only at hl
  subst hl
  simp [buttonStep]

/-- Released tick on a locked button with a positive debounce counter:
only the counter is decremented. -/
lemma buttonStep_release_locked_pos (cfg : btn_init_t) (b : btn_instance_t)
    (hl : b.locked = true) (hc : b.lock_count ≠ 0) :
    buttonStep cfg b false = ({ b with lock_count := b.lock_count - 1 }, []) := by
  obtain ⟨a, p, lk, lc, lg, lpt, po, pi⟩ := b
  simp only at hl hc
  subst hl
  simp [buttonStep, hc]

/-- Any single tick either leaves `act` unchanged or writes
`BTN_STATE_SHORT` or `BTN_STATE_LONG`; `BTN_STATE_NONE` is never written. -/
lemma buttonStep_act_cases (cfg : btn_init_t) (b : btn_instance_t) (raw : Bool) :
    (buttonStep cfg b raw).1.act = b.act ∨
    (buttonStep cfg b raw).1.act = BTN_STATE_SHORT ∨
    (buttonStep cfg b raw).1.act = BTN_STATE_LONG := by
  obtain ⟨a, p, lk, lc, lg, lpt, po, pi⟩ := b
  cases raw <;> cases lk <;> simp only [buttonStep] <;> split_ifs <;> simp_all

/-! ## Claim theorems: per-tick behaviour -/

/-- Claim C1 (amended): for a locked button whose previous raw state was
pressed, on a pressed tick where the incremented `long_count` reaches OR
exceeds the button's long-press threshold, the update sets `act` to
`BTN_STATE_LONG` and invokes the (registered) long-press callback — on
this tick and hence on every subsequent such tick, not only on the tick
where the threshold is first reached. -/
theorem C1_long_press_fires_at_or_above_threshold (cfg : btn_init_t) (b : btn_instance_t)
    (hl : b.locked = true) (hp : b.prew = BTN_STATE_SHORT)
    (hcb : cfg.long_press = true)
    (hth : BTN_LONG_PRESS_TIME cfg b ≤ (b.long_count + 1) % 65536) :
    (buttonStep cfg b true).1.act = BTN_STATE_LONG ∧
    (buttonStep cfg b true).2 = [btn_event_t.ev_long_press] ∧
    (buttonStep cfg b true).1.long_count = (b.long_count + 1) % 65536 := by
  obtain ⟨a, p, lk, lc, lg, lpt, po, pi⟩ := b
  simp only [BTN_LONG_PRESS_TIME] at hth
  simp only at hl hp
  subst hl; subst hp
  simp [buttonStep, hcb, BTN_LONG_PRESS_TIME, hth]

theorem C1_long_press_fires_at_or_above_threshold_witness :
    (buttonStep { process_time_ms := 10, long_press := true }
        { locked := true, prew := BTN_STATE_SHORT, long_press_time_ms := 10 } true).1.act
      = BTN_STATE_LONG ∧
    (buttonStep { process_time_ms := 10, long_press := true }
        { locked := true, prew := BTN_STATE_SHORT, long_press_time_ms := 10 } true).2
      = [btn_event_t.ev_long_press] ∧
    (buttonStep { process_time_ms := 10, long_press := true }
        { locked := true, prew := BTN_STATE_SHORT, long_press_time_ms := 10 } true).1.long_count
      = (({ locked := true, prew := BTN_STATE_SHORT, long_press_time_ms := 10 } :
            btn_instance_t).long_count + 1) % 65536 :=
  C1_long_press_fires_at_or_above_threshold _ _ rfl rfl rfl (by decide)

/-- Claim C2: release finalisation.  A locked button reading raw-released
with `lock_count = 0` clears `locked`; if `long_count` is below the
long-press threshold it sets `act` to `BTN_STATE_SHORT` and invokes the
short-release callback, otherwise `act` is unchanged and the long-release
callback is invoked exactly when `act` is `BTN_STATE_LONG`. -/
theorem C2_release_finalize (cfg : btn_init_t) (b : btn_instance_t)
    (hl : b.locked = true) (hc : b.lock_count = 0)
    (hs : cfg.short_release = true) (hlr : cfg.long_release = true) :
    (buttonStep cfg b false).1.locked = false ∧
    (b.long_count < BTN_LONG_PRESS_TIME cfg b →
      (buttonStep cfg b false).1.act = BTN_STATE_SHORT ∧
      (buttonStep cfg b false).2 = [btn_event_t.ev_short_release]) ∧
    (BTN_LONG_PRESS_TIME cfg b ≤ b.long_count →
      (buttonStep cfg b false).1.act = b.act ∧
      (buttonStep cfg b false).2 =
        (if b.act = BTN_STATE_LONG then [btn_event_t.ev_long_release] else [])) := by
  obtain ⟨a, p, lk, lc, lg, lpt, po, pi⟩ := b
  simp only [BTN_LONG_PRESS_TIME] at *
  subst hl; subst hc
  refine ⟨?_, ?_, ?_⟩
  · simp only [buttonStep]
    split_ifs <;> simp_all
  · intro hlt
    simp [buttonStep, BTN_LONG_PRESS_TIME, hlt, hs]
  · intro hge
    have hnlt : ¬ lg < lpt / cfg.process_time_ms := Nat.not_lt.mpr hge
    simp only [buttonStep, BTN_LONG_PRESS_TIME]
    split_ifs <;> simp_all

theorem C2_release_finalize_witness :
    ((buttonStep { process_time_ms := 10, short_release := true, long_release := true }
        { locked := true, long_press_time_ms := 10 } false).1.locked = false) ∧
    ((buttonStep { process_time_ms := 10, short_release := true, long_release := true }
        { locked := true, long_press_time_ms := 10 } false).1.act = BTN_STATE_SHORT ∧
     (buttonStep { process_time_ms := 10, short_release := true, long_release := true }
        { locked := true, long_press_time_ms := 10 } false).2
        = [btn_event_t.ev_short_release]) :=
  ⟨(C2_release_finalize _ _ rfl rfl rfl rfl).1,
   (C2_release_finalize _ _ rfl rfl rfl rfl).2.1 (by decide)⟩

/-- Claim C9: a locked button reading raw-released with `lock_count > 0`
only has its `lock_count` decremented on this tick; `locked`,
`long_count`, `prew` and `act` are unchanged and no callback site is
reached. -/
theorem C9_release_debounce_decrements_only (cfg : btn_init_t) (b : btn_instance_t)
    (hl : b.locked = true) (hc : 0 < b.lock_count) :
    buttonStep cfg b false = ({ b with lock_count := b.lock_count - 1 }, []) :=
  buttonStep_release_locked_pos cfg b hl (Nat.pos_iff_ne_zero.mp hc)

theorem C9_release_debounce_decrements_only_witness :
    buttonStep { process_time_ms := 10 } { locked := true, lock_count := 2 } false =
      ({ locked := true, lock_count := 1 }, []) :=
  C9_release_debounce_decrements_only _ _ rfl (by decide)

/-! ## Claim C4: activeState transition discipline -/

/-- Claim C4 (amended): whenever a tick changes `act`, the new value is
`BTN_STATE_SHORT` (short-release path) or `BTN_STATE_LONG` (long-press
path); the update never writes `BTN_STATE_NONE`.  There is however no
forward-only discipline: a direct Long-to-Short overwrite occurs (see the
counterexample) and `act` is never reset to None by the release path. -/
theorem C4_act_only_written_short_or_long (cfg : btn_init_t) (b : btn_instance_t) (raw : Bool)
    (hne : (buttonStep cfg b raw).1.act ≠ b.act) :
    (buttonStep cfg b raw).1.act = BTN_STATE_SHORT ∨
    (buttonStep cfg b raw).1.act = BTN_STATE_LONG := by
  rcases buttonStep_act_cases cfg b raw with h | h | h
  · exact absurd h hne
  · exact Or.inl h
  · exact Or.inr h

theorem C4_act_only_written_short_or_long_witness :
    (buttonStep { process_time_ms := 10 } { locked := true, long_press_time_ms := 10 } false).1.act
        = BTN_STATE_SHORT ∨
    (buttonStep { process_time_ms := 10 } { locked := true, long_press_time_ms := 10 } false).1.act
        = BTN_STATE_LONG :=
  C4_act_only_written_short_or_long _ _ _ (by decide)

/-- Engine configuration for the C4 counterexample: 10 ms period, 10 ms
debounce (1 debounce tick). -/
def exInit4 : btn_init_t :=
  { process_time_ms := 10, debounce_time_ms := 10, port_read := some fun _ _ => false }

/-- Button for the C4 counterexample: 20 ms long press (2 ticks). -/
def exBtn4 : btn_instance_t := { long_press_time_ms := 20 }

/-- Raw readings for the C4 counterexample: a held press long enough for
a long press, a full release, then a short press. -/
def exRaws4 : List Bool := [true, true, true, false, false, false, true, false]

/-- Claim C4 counterexample: starting from a successfully initialised
button, after the reading sequence `exRaws4` the active state is
`BTN_STATE_LONG`, and one further released tick finalises a short release
that overwrites it directly with `BTN_STATE_SHORT` — a Long-to-Short
transition that never passes through `BTN_STATE_NONE`, contradicting the
claimed forward-only None-Short-Long discipline. -/
theorem C4_long_to_short_counterexample :
    (Button_Init (some exInit4) (some [exBtn4]) 1).1 = 0 ∧
    ((Button_Init (some exInit4) (some [exBtn4]) 1).2.map (fun st =>
        st.2.map (fun b =>
          ((runSteps st.1 b exRaws4).1.act,
           (runSteps st.1 b (exRaws4 ++ [false])).1.act))))
      = some [(BTN_STATE_LONG, BTN_STATE_SHORT)] :=
  ⟨rfl, rfl⟩

/-! ## Claim C1 counterexample -/

/-- Engine configuration for the C1 counterexample: 10 ms period, 20 ms
debounce (2 ticks), long-press callback registered. -/
def exInit1 : btn_init_t :=
  { process_time_ms := 10, debounce_time_ms := 20,
    port_read := some fun _ _ => false, long_press := true }

/-- Button for the C1 counterexample: 30 ms long press (3 ticks). -/
def exBtn1 : btn_instance_t := { long_press_time_ms := 30 }

/-- Claim C1 counterexample: starting from a successfully initialised
button held pressed for 5 consecutive ticks, `long_count` first reaches
its 3-tick threshold on tick 4 and the long-press callback fires there
AND again on tick 5 — two invocations, contradicting the claimed
"exactly once, only on the tick where longCount first equals the
threshold". -/
theorem C1_long_press_refires_counterexample :
    (Button_Init (some exInit1) (some [exBtn1]) 1).1 = 0 ∧
    ((Button_Init (some exInit1) (some [exBtn1]) 1).2.map (fun st =>
        st.2.map (fun b => (runSteps st.1 b (List.replicate 5 true)).2)))
      = some [[btn_event_t.ev_long_press, btn_event_t.ev_long_press]] :=
  ⟨rfl, rfl⟩

/-! ## Claim C8: query -/

/-- Claim C8: the query returns `BTN_STATE_NONE` for every key at or
beyond the configured count, and the stored `act` of the addressed button
for every key below the count. -/
theorem C8_event_get_total (cfg : btn_init_t) (inst : List btn_instance_t) (key : Nat) :
    (cfg.count ≤ key → Button_EventGet cfg inst key = BTN_STATE_NONE) ∧
    (key < cfg.count → ∀ b, inst[key]? = some b → Button_EventGet cfg inst key = b.act) := by
  constructor
  · intro h; simp [Button_EventGet, h]
  · intro h b hb
    simp [Button_EventGet, Nat.not_le.mpr h, hb]

theorem C8_event_get_total_witness :
    Button_EventGet { count := 1 } [{ act := BTN_STATE_SHORT }] 0 = BTN_STATE_SHORT ∧
    Button_EventGet { count := 1 } [{ act := BTN_STATE_SHORT }] 5 = BTN_STATE_NONE :=
  ⟨(C8_event_get_total { count := 1 } [{ act := BTN_STATE_SHORT }] 0).2 (by decide)
      { act := BTN_STATE_SHORT } rfl,
   (C8_event_get_total { count := 1 } [{ act := BTN_STATE_SHORT }] 5).1 (by decide)⟩

/-! ## Initialisation claims -/

/-- Inversion of a successful `Button_Init`: the bound state is exactly
the configuration with defaults applied and the re-initialised storage. -/
lemma Button_Init_success_inv (i : btn_init_t) (l : List btn_instance_t) (count : Nat)
    (st : btn_init_t × List btn_instance_t)
    (h : Button_Init (some i) (some l) count = (0, some st)) :
    st = (initApplyDefaults i count,
          (l.take count).map (resetButton (initApplyDefaults i count).long_press_def_ms)
            ++ l.drop count) := by
  by_cases hfail : i.port_read.isNone ∨ count = 0
  · simp only [Button_Init] at h
    rw [if_pos hfail] at h
    have h1 : (-1 : Int) = 0 := congrArg Prod.fst h
    exact absurd h1 (by decide)
  · simp only [Button_Init, if_neg hfail, Prod.mk.injEq, Option.some.injEq] at h
    exact h.2.symm

/-- Indexing the re-initialised storage below `count` (and in range)
gives the reset of the original entry. -/
lemma init_button_get (d : Nat) (l : List btn_instance_t) (count k : Nat)
    (hk : k < count) (hk2 : k < l.length) :
    ((l.take count).map (resetButton d) ++ l.drop count)[k]? =
      (l[k]?).map (resetButton d) := by
  have hlen : k < ((l.take count).map (resetButton d)).length := by
    simp [List.length_take]; omega
  rw [List.getElem?_append_left hlen, List.getElem?_map, List.getElem?_take_of_lt hk]

/-- The failure condition of `Button_Init` as stated by the spec: NULL
configuration, NULL storage, zero count, or unset pin-read callback. -/
def initFails (init : Option btn_init_t) (inst : Option (List btn_instance_t))
    (count : Nat) : Prop :=
  init = none ∨ inst = none ∨ count = 0 ∨ ∃ i, init = some i ∧ i.port_read = none

/-- Claim C5: `Button_Init` returns a negative result exactly when the
configuration is NULL, the storage is NULL, the count is zero, or the
pin-read callback is unset; otherwise it returns 0 and binds the engine
to the supplied configuration (with the requested count) and to button
storage of the supplied length. -/
theorem C5_init_validation (init : Option btn_init_t) (inst : Option (List btn_instance_t))
    (count : Nat) :
    ((Button_Init init inst count).1 < 0 ↔ initFails init inst count) ∧
    (¬ initFails init inst count →
      (Button_Init init inst count).1 = 0 ∧
      ∃ st, (Button_Init init inst count).2 = some st ∧ st.1.count = count ∧
        ∀ l, inst = some l → st.2.length = l.length) := by
  match init, inst with
  | none, _ =>
    refine ⟨?_, ?_⟩
    · simp [Button_Init, initFails]
    · intro hnf; exact absurd (Or.inl rfl) hnf
  | some i, none =>
    refine ⟨?_, ?_⟩
    · simp [Button_Init, initFails]
    · intro hnf; exact absurd (Or.inr (Or.inl rfl)) hnf
  | some i, some l =>
    by_cases hfail : i.port_read.isNone ∨ count = 0
    · refine ⟨?_, ?_⟩
      · simp only [Button_Init, if_pos hfail]
        constructor
        · intro _
          rcases hfail with hpr | hcz
          · exact Or.inr (Or.inr (Or.inr ⟨i, rfl, Option.isNone_iff_eq_none.mp hpr⟩))
          · exact Or.inr (Or.inr (Or.inl hcz))
        · intro _; decide
      · intro hnf
        exfalso
        rcases hfail with hpr | hcz
        · exact hnf (Or.inr (Or.inr (Or.inr ⟨i, rfl, Option.isNone_iff_eq_none.mp hpr⟩)))
        · exact hnf (Or.inr (Or.inr (Or.inl hcz)))
    · have hres : Button_Init (some i) (some l) count =
        (0, some (initApplyDefaults i count,
          (l.take count).map (resetButton (initApplyDefaults i count).long_press_def_ms)
            ++ l.drop count)) := by
        simp only [Button_Init]
        rw [if_neg hfail]
      refine ⟨?_, ?_⟩
      · rw [hres]
        simp only
        constructor
        · intro h0; omega
        · intro hf
          exfalso
          rcases hf with h | h | h | ⟨j, hj, hpr⟩
          · exact Option.noConfusion h
          · exact Option.noConfusion h
          · exact hfail (Or.inr h)
          · rw [Option.some.injEq] at hj
            subst hj
            exact hfail (Or.inl (Option.isNone_iff_eq_none.mpr hpr))
      · intro _
        rw [hres]
        refine ⟨rfl, _, rfl, rfl, ?_⟩
        intro l' hl'
        rw [Option.some.injEq] at hl'
        subst hl'
        simp [List.length_take]
        omega

/-- Minimal valid configuration for the C5 witness. -/
def exInit5 : btn_init_t := { port_read := some fun _ _ => true }

/-- Zero-initialised button storage entry. -/
def exBtn5 : btn_instance_t := {}

theorem C5_init_validation_witness :
    (Button_Init (some exInit5) (some [exBtn5]) 1).1 = 0 ∧
    ∃ st, (Button_Init (some exInit5) (some [exBtn5]) 1).2 = some st ∧ st.1.count = 1 ∧
      ∀ l, (some [exBtn5] : Option (List btn_instance_t)) = some l → st.2.length = l.length :=
  (C5_init_validation (some exInit5) (some [exBtn5]) 1).2 (by
    simp [initFails, exInit5])

/-- Engine configuration for the C6 counterexample. -/
def exInit6 : btn_init_t :=
  { process_time_ms := 10, debounce_time_ms := 20, port_read := some fun _ _ => false }

/-- Button storage entry whose stored active state is already
`BTN_STATE_SHORT` when `Button_Init` is called (as happens on
re-initialisation after a previous press). -/
def exBtn6 : btn_instance_t := { act := BTN_STATE_SHORT }

/-- Claim C6 counterexample: `Button_Init` succeeds on `exBtn6` yet the
button's active (queryable) state after initialisation is
`BTN_STATE_SHORT`, not `BTN_STATE_NONE` — the init loop never writes
`state.act`, contradicting the claim that the active state is zeroed. -/
theorem C6_act_not_zeroed_counterexample :
    (Button_Init (some exInit6) (some [exBtn6]) 1).1 = 0 ∧
    ((Button_Init (some exInit6) (some [exBtn6]) 1).2.map (fun st =>
        st.2.map btn_instance_t.act))
      = some [BTN_STATE_SHORT] :=
  ⟨rfl, rfl⟩

/-- Claim C6 (amended): on every successful initialisation, every
configured (and in-range) button has `locked` false, `lock_count` 0,
`long_count` 0 and previous raw state `BTN_STATE_NONE`; the active state
field is left unmodified (it equals the caller-supplied entry's `act`,
and is NOT forced to `BTN_STATE_NONE`). -/
theorem C6_init_zeroes_counters (i : btn_init_t) (l : List btn_instance_t)
    (count : Nat) (st : btn_init_t × List btn_instance_t)
    (h : Button_Init (some i) (some l) count = (0, some st))
    (k : Nat) (hk : k < count) (hk2 : k < l.length) :
    ∃ b0 b, l[k]? = some b0 ∧ st.2[k]? = some b ∧
      b.locked = false ∧ b.lock_count = 0 ∧ b.long_count = 0 ∧
      b.prew = BTN_STATE_NONE ∧ b.act = b0.act := by
  obtain rfl := Button_Init_success_inv i l count st h
  have hb0 : l[k]? = some l[k] := List.getElem?_eq_getElem hk2
  refine ⟨l[k], resetButton (initApplyDefaults i count).long_press_def_ms l[k],
    hb0, ?_, rfl, rfl, rfl, rfl, rfl⟩
  rw [init_button_get _ _ _ _ hk hk2, hb0]
  rfl

/-- The engine state produced by the C6 initialisation. -/
def exSt6 : btn_init_t × List btn_instance_t :=
  ((Button_Init (some exInit6) (some [exBtn6]) 1).2).getD ({}, [])

theorem C6_init_zeroes_counters_witness :
    ∃ b0 b, ([exBtn6] : List btn_instance_t)[0]? = some b0 ∧ exSt6.2[0]? = some b ∧
      b.locked = false ∧ b.lock_count = 0 ∧ b.long_count = 0 ∧
      b.prew = BTN_STATE_NONE ∧ b.act = b0.act :=
  C6_init_zeroes_counters exInit6 [exBtn6] 1 exSt6 rfl 0 (by decide) (by decide)

/-- Claim C7: on success, each zero timing field receives its default
(period 10 ms, debounce 20 ms, default long press 1000 ms), nonzero
fields are kept, and each configured button's long-press time defaults to
the (already defaulted) global value exactly when the button left it
zero. -/
theorem C7_init_defaults_applied (i : btn_init_t) (l : List btn_instance_t)
    (count : Nat) (st : btn_init_t × List btn_instance_t)
    (h : Button_Init (some i) (some l) count = (0, some st)) :
    st.1.process_time_ms = (if i.process_time_ms ≠ 0 then i.process_time_ms else 10) ∧
    st.1.debounce_time_ms = (if i.debounce_time_ms ≠ 0 then i.debounce_time_ms else 20) ∧
    st.1.long_press_def_ms = (if i.long_press_def_ms ≠ 0 then i.long_press_def_ms else 1000) ∧
    (∀ k, k < count → k < l.length → ∀ b0, l[k]? = some b0 →
      ∃ b, st.2[k]? = some b ∧
        b.long_press_time_ms =
          (if b0.long_press_time_ms ≠ 0 then b0.long_press_time_ms
           else st.1.long_press_def_ms)) := by
  obtain rfl := Button_Init_success_inv i l count st h
  refine ⟨rfl, rfl, rfl, ?_⟩
  intro k hk hk2 b0 hb0
  refine ⟨resetButton (initApplyDefaults i count).long_press_def_ms b0, ?_, rfl⟩
  rw [init_button_get _ _ _ _ hk hk2, hb0]
  rfl

/-- All-zero timing configuration for the C7 witness. -/
def exInit7 : btn_init_t := { port_read := some fun _ _ => true }

/-- The engine state produced by the C7 initialisation. -/
def exSt7 : btn_init_t × List btn_instance_t :=
  ((Button_Init (some exInit7) (some [(exBtn5 : btn_instance_t)]) 1).2).getD ({}, [])

theorem C7_init_defaults_applied_witness :
    exSt7.1.process_time_ms = (if (exInit7 : btn_init_t).process_time_ms ≠ 0
        then exInit7.process_time_ms else 10) ∧
    exSt7.1.debounce_time_ms = (if (exInit7 : btn_init_t).debounce_time_ms ≠ 0
        then exInit7.debounce_time_ms else 20) ∧
    exSt7.1.long_press_def_ms = (if (exInit7 : btn_init_t).long_press_def_ms ≠ 0
        then exInit7.long_press_def_ms else 1000) ∧
    (∃ b, exSt7.2[0]? = some b ∧
      b.long_press_time_ms =
        (if (exBtn5 : btn_instance_t).long_press_time_ms ≠ 0
         then exBtn5.long_press_time_ms else exSt7.1.long_press_def_ms)) :=
  ⟨(C7_init_defaults_applied exInit7 [exBtn5] 1 exSt7 rfl).1,
   (C7_init_defaults_applied exInit7 [exBtn5] 1 exSt7 rfl).2.1,
   (C7_init_defaults_applied exInit7 [exBtn5] 1 exSt7 rfl).2.2.1,
   (C7_init_defaults_applied exInit7 [exBtn5] 1 exSt7 rfl).2.2.2 0 (by decide) (by decide)
     exBtn5 rfl⟩

lemma runSteps_cons (cfg : btn_init_t) (b : btn_instance_t) (r : Bool) (rs : List Bool) :
    runSteps cfg b (r :: rs) =
      ((runSteps cfg (buttonStep cfg b r).1 rs).1,
       (buttonStep cfg b r).2 ++ (runSteps cfg (buttonStep cfg b r).1 rs).2) := rfl

lemma runSteps_append (cfg : btn_init_t) (xs ys : List Bool) :
    ∀ b, runSteps cfg b (xs ++ ys) =
      ((runSteps cfg (runSteps cfg b xs).1 ys).1,
       (runSteps cfg b xs).2 ++ (runSteps cfg (runSteps cfg b xs).1 ys).2) := by
  induction xs with
  | nil => intro b; simp [runSteps]
  | cons r rs ih =>
    intro b
    simp [runSteps_cons, ih, List.append_assoc]

lemma runSteps_press_below (cfg : btn_init_t) (k : Nat) :
    ∀ (b : btn_instance_t), b.locked = false →
      b.lock_count + k < BTN_DEBOUNCE_TIME cfg → BTN_DEBOUNCE_TIME cfg ≤ 256 →
      runSteps cfg b (List.replicate k true) =
        ({ b with lock_count := b.lock_count + k,
                  prew := if k = 0 then b.prew else BTN_STATE_SHORT }, []) := by
  induction k with
  | zero =>
    intro b hl hk hd
    simp [runSteps]
  | succ n ih =>
    intro b hl hk hd
    rw [List.replicate_succ, runSteps_cons,
      buttonStep_press_below cfg b hl (by omega) (by omega)]
    dsimp only
    rw [ih { b with lock_count := b.lock_count + 1, prew := BTN_STATE_SHORT } hl
      (by dsimp only; omega) hd]
    have harr : b.lock_count + 1 + n = b.lock_count + (n + 1) := by omega
    simp [harr]

lemma runSteps_release_unlocked (cfg : btn_init_t) (m : Nat) :
    ∀ (b : btn_instance_t), b.locked = false →
      runSteps cfg b (List.replicate m false) =
        ({ b with long_count := if m = 0 then b.long_count else 0 }, []) := by
  induction m with
  | zero => intro b hl; simp [runSteps]
  | succ n ih =>
    intro b hl
    rw [List.replicate_succ, runSteps_cons, buttonStep_release_unlocked cfg b hl]
    dsimp only
    rw [ih { b with long_count := 0 } hl]
    simp

lemma neverLocked_cons (cfg : btn_init_t) (b : btn_instance_t) (r : Bool) (rs : List Bool) :
    neverLocked cfg b (r :: rs) =
      (!b.locked && neverLocked cfg (buttonStep cfg b r).1 rs) := rfl

lemma neverLocked_press (cfg : btn_init_t) (k : Nat) :
    ∀ b : btn_instance_t, b.locked = false →
      b.lock_count + k < BTN_DEBOUNCE_TIME cfg → BTN_DEBOUNCE_TIME cfg ≤ 256 →
      neverLocked cfg b (List.replicate k true) = true := by
  induction k with
  | zero => intro b hl _ _; simp [neverLocked, hl]
  | succ n ih =>
    intro b hl hk hd
    rw [List.replicate_succ, neverLocked_cons,
      buttonStep_press_below cfg b hl (by omega) (by omega)]
    dsimp only
    rw [ih { b with lock_count := b.lock_count + 1, prew := BTN_STATE_SHORT } hl
      (by dsimp only; omega) hd]
    simp [hl]

lemma neverLocked_release_unlocked (cfg : btn_init_t) (m : Nat) :
    ∀ b : btn_instance_t, b.locked = false →
      neverLocked cfg b (List.replicate m false) = true := by
  induction m with
  | zero => intro b hl; simp [neverLocked, hl]
  | succ n ih =>
    intro b hl
    rw [List.replicate_succ, neverLocked_cons, buttonStep_release_unlocked cfg b hl]
    dsimp only
    rw [ih { b with long_count := 0 } hl]
    simp [hl]

lemma neverLocked_self (cfg : btn_init_t) (l : List Bool) (b : btn_instance_t) :
    (!b.locked && neverLocked cfg b l) = neverLocked cfg b l := by
  cases l <;> simp [neverLocked, Bool.and_self_left, Bool.and_self]

lemma neverLocked_append (cfg : btn_init_t) (xs ys : List Bool) :
    ∀ b, neverLocked cfg b (xs ++ ys) =
      (neverLocked cfg b xs && neverLocked cfg (runSteps cfg b xs).1 ys) := by
  induction xs with
  | nil => intro b; exact (neverLocked_self cfg ys b).symm
  | cons r rs ih =>
    intro b
    simp [neverLocked_cons, runSteps_cons, ih, Bool.and_assoc]

/-- Claim C3: from a freshly initialised per-button state (unlocked,
zero debounce count), a raw-pressed pulse of `k` consecutive ticks with
`k` strictly below the debounce tick count, followed by any number of
released ticks, never enters the locked state at any point, emits no
events, and leaves `act` unchanged.  The bound
`BTN_DEBOUNCE_TIME cfg ≤ 256` reflects the uint8_t type of
`debounce_time_ms` (at most 255 ticks for any valid configuration). -/
theorem C3_short_pulse_filtered (cfg : btn_init_t) (b : btn_instance_t) (k m : Nat)
    (hl : b.locked = false) (hlc : b.lock_count = 0)
    (hd : BTN_DEBOUNCE_TIME cfg ≤ 256)
    (hk : k < BTN_DEBOUNCE_TIME cfg) :
    neverLocked cfg b (List.replicate k true ++ List.replicate m false) = true ∧
    (runSteps cfg b (List.replicate k true ++ List.replicate m false)).2 = [] ∧
    (runSteps cfg b (List.replicate k true ++ List.replicate m false)).1.act = b.act := by
  have hkk : b.lock_count + k < BTN_DEBOUNCE_TIME cfg := by omega
  have hpress := runSteps_press_below cfg k b hl hkk hd
  have hb1l : (runSteps cfg b (List.replicate k true)).1.locked = false := by
    rw [hpress]; exact hl
  refine ⟨?_, ?_, ?_⟩
  · rw [neverLocked_append, neverLocked_press cfg k b hl hkk hd, Bool.true_and]
    exact neverLocked_release_unlocked cfg m _ hb1l
  · rw [runSteps_append, hpress]
    dsimp only
    rw [runSteps_release_unlocked cfg m
      { b with lock_count := b.lock_count + k,
               prew := if k = 0 then b.prew else BTN_STATE_SHORT } hl]
    rfl
  · rw [runSteps_append, hpress]
    dsimp only
    rw [runSteps_release_unlocked cfg m
      { b with lock_count := b.lock_count + k,
               prew := if k = 0 then b.prew else BTN_STATE_SHORT } hl]

/-- Configuration for the C3 witness: 2 debounce ticks. -/
def cfgW3 : btn_init_t := { process_time_ms := 10, debounce_time_ms := 20 }

theorem C3_short_pulse_filtered_witness :
    neverLocked cfgW3 {} (List.replicate 1 true ++ List.replicate 2 false) = true ∧
    (runSteps cfgW3 {} (List.replicate 1 true ++ List.replicate 2 false)).2 = [] ∧
    (runSteps cfgW3 {} (List.replicate 1 true ++ List.replicate 2 false)).1.act =
      ({} : btn_instance_t).act :=
  C3_short_pulse_filtered cfgW3 {} 1 2 rfl rfl (by decide) (by decide)

lemma runSteps_act_ne_none (cfg : btn_init_t) (raws : List Bool) :
    ∀ b : btn_instance_t, b.act ≠ BTN_STATE_NONE →
      (runSteps cfg b raws).1.act ≠ BTN_STATE_NONE := by
  induction raws with
  | nil => intro b hb; exact hb
  | cons r rs ih =>
    intro b hb
    rw [runSteps_cons]
    have hstep : (buttonStep cfg b r).1.act ≠ BTN_STATE_NONE := by
      rcases buttonStep_act_cases cfg b r with h | h | h <;> rw [h] <;>
        first | exact hb | simp
    exact ih _ hstep

/-- Claim C10: once `act` holds Short or Long it is never reset to
`BTN_STATE_NONE` by any further sequence of update ticks, and a
successful re-initialisation leaves every stored active-state field
unmodified (the init loop never writes `state.act`). -/
theorem C10_act_never_cleared (cfg : btn_init_t) (b : btn_instance_t) (raws : List Bool)
    (i : btn_init_t) (l : List btn_instance_t) (count : Nat)
    (st : btn_init_t × List btn_instance_t)
    (hb : b.act ≠ BTN_STATE_NONE)
    (hinit : Button_Init (some i) (some l) count = (0, some st)) :
    (runSteps cfg b raws).1.act ≠ BTN_STATE_NONE ∧
    st.2.map btn_instance_t.act = l.map btn_instance_t.act := by
  refine ⟨runSteps_act_ne_none cfg raws b hb, ?_⟩
  obtain rfl := Button_Init_success_inv i l count st hinit
  have hcomp : btn_instance_t.act ∘
      resetButton (initApplyDefaults i count).long_press_def_ms = btn_instance_t.act :=
    funext fun _ => rfl
  calc (((l.take count).map (resetButton (initApplyDefaults i count).long_press_def_ms))
          ++ l.drop count).map btn_instance_t.act
      = (l.take count).map btn_instance_t.act ++ (l.drop count).map btn_instance_t.act := by
        rw [List.map_append, List.map_map, hcomp]
    _ = l.map btn_instance_t.act := by rw [← List.map_append, List.take_append_drop]

/-- Configuration for the C10 witness. -/
def exInit10 : btn_init_t := { port_read := some fun _ _ => true }

/-- Engine state produced by the C10 witness initialisation. -/
def exSt10 : btn_init_t × List btn_instance_t :=
  ((Button_Init (some exInit10) (some [({} : btn_instance_t)]) 1).2).getD ({}, [])

theorem C10_act_never_cleared_witness :
    (runSteps { process_time_ms := 10 } { act := BTN_STATE_SHORT } [false]).1.act
        ≠ BTN_STATE_NONE ∧
    exSt10.2.map btn_instance_t.act = [({} : btn_instance_t)].map btn_instance_t.act :=
  C10_act_never_cleared { process_time_ms := 10 } { act := BTN_STATE_SHORT } [false]
    exInit10 [{}] 1 exSt10 (by decide) rfl
